import Mathlib

/-!
Shallow embedding of the core of `ha-yale-doorman` (the state/event ledger
in `src/state.py`, the adaptive scheduler in `src/scheduler.py`, and the
session coordinator's `poll_state` in `src/ble_monitor.py`), with theorems
settling the spec's claims about them.

Conventions of the embedding:
  * Python wall-clock reads (`datetime.now(...)`, `time.monotonic()`) are
    passed in as explicit arguments.
  * Fallible side effects (the durable file append, subscriber callbacks,
    the BLE `update()` read) are modelled by explicit outcome parameters;
    a `try`/`except` that swallows the exception becomes a total function
    of that outcome.
  * Side effects are returned as observable traces: the list of
    `StateEvent`s a call creates and the list of callback invocations it
    performs.
-/

namespace YaleDoorman

/-- Embeds the `DoormanState` dataclass of `src/state.py`: the current
state of the lock.  `battery_voltage` is a Python float never used
arithmetically; it is modelled as a rational. -/
structure DoormanState where
  lock_state : String
  door_state : String
  battery_level : Option Int
  battery_voltage : Option Rat
  doorbell_ringing : Bool
  auto_lock_enabled : Bool
  auto_lock_duration : Int
  connected : Bool
  rssi : Option Int
  lock_model : String
  lock_serial : String
  lock_firmware : String
  last_updated : String
  last_activity : String
  last_activity_type : String
deriving Repr, DecidableEq

/-- Field defaults of the `DoormanState` dataclass. -/
def DoormanState.init : DoormanState :=
  { lock_state := "unknown"
    door_state := "unknown"
    battery_level := none
    battery_voltage := none
    doorbell_ringing := false
    auto_lock_enabled := false
    auto_lock_duration := 0
    connected := false
    rssi := none
    lock_model := ""
    lock_serial := ""
    lock_firmware := ""
    last_updated := ""
    last_activity := ""
    last_activity_type := "" }

/-- Embeds the `StateEvent` dataclass of `src/state.py`: one state change
event. -/
structure StateEvent where
  timestamp : String
  event_type : String
  old_value : String
  new_value : String
  source : String
deriving Repr, DecidableEq

/-- Python's tail slice `l[-count:]` for a nonnegative `count`: for
`count = 0` the slice is `l[0:]`, the whole list; for `count > 0` it is
the last `min count l.length` elements. -/
def pyTailSlice (l : List α) (count : Nat) : List α :=
  if count = 0 then l else l.drop (l.length - count)

/-- Embeds the `EventLog` class of `src/state.py`.  `events` is the
in-memory window `self._events`; `file` holds the parsed contents of the
durable events file (the lines successfully appended). -/
structure EventLog where
  max_memory : Nat
  events : List StateEvent
  file : List StateEvent
deriving Repr, DecidableEq

/-- Embeds `EventLog.__init__` / `EventLog._load_recent` for an existing,
well-formed events file: `fileEvents` are the parsed lines, in file order;
`_load_recent` loads `lines[-max_memory:]` into the in-memory window. -/
def EventLog.load (fileEvents : List StateEvent) (max_memory : Nat) : EventLog :=
  { max_memory := max_memory
    events := pyTailSlice fileEvents max_memory
    file := fileEvents }

/-- Embeds `EventLog.add`: append to the in-memory list, trim it to the
last `max_memory` entries, then try to append one line to the durable
file.  `writeOk` is the outcome of the file append; the `except` branch
swallows a failure (only logging it), so the function is total in
`writeOk` and the durable file simply does not grow on failure. -/
def EventLog.add (log : EventLog) (e : StateEvent) (writeOk : Bool) : EventLog :=
  let evs := log.events ++ [e]
  let evs2 := if log.max_memory < evs.length then pyTailSlice evs log.max_memory else evs
  { max_memory := log.max_memory
    events := evs2
    file := if writeOk then log.file ++ [e] else log.file }

/-- Folds `EventLog.add` over a list of events. -/
def EventLog.addAll (log : EventLog) (es : List StateEvent) (writeOk : Bool) : EventLog :=
  es.foldl (fun l e => l.add e writeOk) log

/-- Embeds `EventLog.recent`: the slice `self._events[-count:]` (the
Python method maps `to_dict` over it; the events themselves are
returned here, `to_dict` being a plain field-for-field serialisation). -/
def EventLog.recent (log : EventLog) (count : Nat) : List StateEvent :=
  pyTailSlice log.events count

/-- A registered subscriber callback, identified by `id`.  `fails s e`
tells whether invoking the callback on `(s, e)` raises. -/
structure Callback where
  id : Nat
  fails : DoormanState → StateEvent → Bool

/-- One invocation of a callback in `StateManager._notify`: which
callback ran, the `(snapshot, event)` pair it received, and whether it
raised. -/
structure Invocation where
  cb_id : Nat
  snapshot : DoormanState
  event : StateEvent
  raised : Bool
deriving Repr, DecidableEq

/-- Invoking one callback: `Except.error` models the callback raising. -/
def invokeCallback (cb : Callback) (s : DoormanState) (e : StateEvent) :
    Except String Unit :=
  if cb.fails s e then Except.error "callback error" else Except.ok ()

/-- Embeds `StateManager._notify`: invoke every registered callback on
`(self.state, event)`, each in its own `try`/`except` (a raise is caught,
logged and the loop continues).  Returns the trace of invocations.  The
function being total in the callbacks' behaviour is the embedded fact
that no callback exception reaches the mutator. -/
def notifyAll : List Callback → DoormanState → StateEvent → List Invocation
  | [], _, _ => []
  | cb :: rest, s, e =>
    let r := match invokeCallback cb s e with
      | Except.ok _ => false
      | Except.error _ => true
    { cb_id := cb.id, snapshot := s, event := e, raised := r } :: notifyAll rest s e

/-- Embeds the `StateManager` class of `src/state.py`. -/
structure StateManager where
  state : DoormanState
  event_log : EventLog
  callbacks : List Callback

/-- Result of one boolean-returning `StateManager` mutator call:
the updated manager, the returned boolean (`changed`), the events the
call created (passed to `EventLog.add` and `_notify`), and the callback
invocation trace. -/
structure MutationResult where
  manager : StateManager
  changed : Bool
  emitted : List StateEvent
  notifications : List Invocation

/-- Embeds `StateManager.update_lock_state`.  `now` stands for the
`self._now()` timestamp reads, `writeOk` for the durable append's
outcome. -/
def StateManager.update_lock_state (m : StateManager) (new_state source now : String)
    (writeOk : Bool) : MutationResult :=
  if new_state = m.state.lock_state then
    { manager := m, changed := false, emitted := [], notifications := [] }
  else
    let old := m.state.lock_state
    let st := { m.state with
      lock_state := new_state
      last_updated := now
      last_activity := now
      last_activity_type := new_state }
    let event : StateEvent :=
      { timestamp := now, event_type := "lock_state"
        old_value := old, new_value := new_state, source := source }
    { manager :=
        { state := st, event_log := m.event_log.add event writeOk
          callbacks := m.callbacks }
      changed := true
      emitted := [event]
      notifications := notifyAll m.callbacks st event }

/-- Embeds `StateManager.update_door_state`. -/
def StateManager.update_door_state (m : StateManager) (new_state source now : String)
    (writeOk : Bool) : MutationResult :=
  if new_state = m.state.door_state then
    { manager := m, changed := false, emitted := [], notifications := [] }
  else
    let old := m.state.door_state
    let st := { m.state with
      door_state := new_state
      last_updated := now
      last_activity := now
      last_activity_type := "door_" ++ new_state }
    let event : StateEvent :=
      { timestamp := now, event_type := "door_state"
        old_value := old, new_value := new_state, source := source }
    { manager :=
        { state := st, event_log := m.event_log.add event writeOk
          callbacks := m.callbacks }
      changed := true
      emitted := [event]
      notifications := notifyAll m.callbacks st event }

/-- Embeds `StateManager.update_battery`.  The Python guard
`level == self.state.battery_level` compares an `int` with `int | None`
and is false when the stored level is `None`. -/
def StateManager.update_battery (m : StateManager) (level : Int)
    (voltage : Option Rat) (source now : String) (writeOk : Bool) : MutationResult :=
  if some level = m.state.battery_level then
    { manager := m, changed := false, emitted := [], notifications := [] }
  else
    let old := match m.state.battery_level with
      | some v => toString v
      | none => "unknown"
    let st := { m.state with
      battery_level := some level
      battery_voltage := voltage
      last_updated := now }
    let event : StateEvent :=
      { timestamp := now, event_type := "battery"
        old_value := old, new_value := toString level, source := source }
    { manager :=
        { state := st, event_log := m.event_log.add event writeOk
          callbacks := m.callbacks }
      changed := true
      emitted := [event]
      notifications := notifyAll m.callbacks st event }

/-- Embeds `StateManager.update_doorbell`.  Only a transition to
`ringing = True` touches `last_activity` / `last_activity_type`. -/
def StateManager.update_doorbell (m : StateManager) (ringing : Bool)
    (source now : String) (writeOk : Bool) : MutationResult :=
  if ringing = m.state.doorbell_ringing then
    { manager := m, changed := false, emitted := [], notifications := [] }
  else
    let old := if m.state.doorbell_ringing then "ringing" else "idle"
    let nv := if ringing then "ringing" else "idle"
    let st0 := { m.state with doorbell_ringing := ringing, last_updated := now }
    let st := if ringing then
        { st0 with last_activity := now, last_activity_type := "doorbell" }
      else st0
    let event : StateEvent :=
      { timestamp := now, event_type := "doorbell"
        old_value := old, new_value := nv, source := source }
    { manager :=
        { state := st, event_log := m.event_log.add event writeOk
          callbacks := m.callbacks }
      changed := true
      emitted := [event]
      notifications := notifyAll m.callbacks st event }

/-- Result of `StateManager.update_connection`, which returns `None` in
Python, so there is no `changed` field here: only the updated manager and
the side-effect traces. -/
structure ConnectionResult where
  manager : StateManager
  emitted : List StateEvent
  notifications : List Invocation

/-- Embeds `StateManager.update_connection`: `connected` and `rssi` are
stored and `last_updated` recomputed on every call; an event is created,
appended and broadcast only when the `connected` boolean flips. -/
def StateManager.update_connection (m : StateManager) (connected : Bool)
    (rssi : Option Int) (now : String) (writeOk : Bool) : ConnectionResult :=
  let changed := connected ≠ m.state.connected
  let st := { m.state with connected := connected, rssi := rssi, last_updated := now }
  if changed then
    let event : StateEvent :=
      { timestamp := now, event_type := "connection"
        old_value := if connected then "disconnected" else "connected"
        new_value := if connected then "connected" else "disconnected"
        source := "system" }
    { manager :=
        { state := st, event_log := m.event_log.add event writeOk
          callbacks := m.callbacks }
      emitted := [event]
      notifications := notifyAll m.callbacks st event }
  else
    { manager := { state := st, event_log := m.event_log, callbacks := m.callbacks }
      emitted := []
      notifications := [] }

/-- Embeds `StateManager.update_lock_info`: sets the three hardware-info
fields and nothing else (in particular it never reads the clock). -/
def StateManager.update_lock_info (m : StateManager)
    (model serial firmware : String) : StateManager :=
  { m with state := { m.state with
      lock_model := model
      lock_serial := serial
      lock_firmware := firmware } }

/-- Embeds `StateManager.update_auto_lock`: sets the two auto-lock fields
and nothing else. -/
def StateManager.update_auto_lock (m : StateManager) (enabled : Bool)
    (duration : Int) : StateManager :=
  { m with state := { m.state with
      auto_lock_enabled := enabled
      auto_lock_duration := duration } }

/-- Iterating a `StateManager` mutator `n` times, summing how many events
the calls emit. -/
def iterateMutator (step : StateManager → MutationResult) :
    Nat → StateManager → StateManager × Nat
  | 0, m => (m, 0)
  | n + 1, m =>
    let r := step m
    let p := iterateMutator step n r.manager
    (p.1, r.emitted.length + p.2)

/-- Embeds the `PollConfig` dataclass of `src/config.py` (Python ints). -/
structure PollConfig where
  quiet_interval_sec : Int
  normal_interval_sec : Int
  active_interval_sec : Int
  active_decay_sec : Int
  battery_poll_interval_sec : Int
  quiet_hours_start : Int
  quiet_hours_end : Int
deriving Repr, DecidableEq

/-- Embeds `AdaptiveScheduler._is_quiet_hours`, with the current local
hour (`datetime.now().hour`) passed explicitly. -/
def is_quiet_hours (cfg : PollConfig) (hour : Int) : Bool :=
  let start := cfg.quiet_hours_start
  let endH := cfg.quiet_hours_end
  if start < endH then
    decide (start ≤ hour ∧ hour < endH)
  else
    decide (hour ≥ start ∨ hour < endH)

/-- Embeds `AdaptiveScheduler._is_active_mode`, with the monotonic clock
reading `nowMono` (`time.monotonic()`, a float, modelled as a rational)
and the instance field `self._last_activity_time` passed explicitly. -/
def is_active_mode (cfg : PollConfig) (nowMono last_activity_time : Rat) : Bool :=
  if last_activity_time = 0 then false
  else decide (nowMono - last_activity_time < (cfg.active_decay_sec : Rat))

/-- Embeds `AdaptiveScheduler.get_next_poll_interval` together with the
`mode` local it computes (the same three-way selection `get_status`
reports as `"mode"`); the Python method itself returns only
`float(interval)` and logs the mode. -/
def get_next_poll_interval (cfg : PollConfig) (nowMono last_activity_time : Rat)
    (hour : Int) : Rat × String :=
  if is_active_mode cfg nowMono last_activity_time then
    ((cfg.active_interval_sec : Rat), "active")
  else if is_quiet_hours cfg hour then
    ((cfg.quiet_interval_sec : Rat), "quiet")
  else
    ((cfg.normal_interval_sec : Rat), "normal")

/-- The part of `YaleBLEMonitor` (`src/ble_monitor.py`) that
`poll_state` touches: whether `self._push_lock` is set
(`has_push_lock`), the `self._running` flag, and the `StateManager`. -/
structure MonitorState where
  has_push_lock : Bool
  running : Bool
  manager : StateManager

/-- Result of `YaleBLEMonitor.poll_state` (a `None`-returning coroutine):
the updated monitor and the side-effect traces of the one
`update_connection` call it may make. -/
structure PollResult where
  monitor : MonitorState
  emitted : List StateEvent
  notifications : List Invocation

/-- Embeds `YaleBLEMonitor.poll_state`: guarded by
`self._push_lock and self._running`; the awaited
`self._push_lock.update()` read's outcome is `updateRaises`; on a raise
the `except` branch logs and calls `update_connection(False)` (with
`rssi` defaulting to `None`), and the exception stops there — the
function is total in `updateRaises`. -/
def MonitorState.poll_state (mon : MonitorState) (updateRaises : Bool)
    (now : String) (writeOk : Bool) : PollResult :=
  if mon.has_push_lock && mon.running then
    if updateRaises then
      let r := mon.manager.update_connection false none now writeOk
      { monitor :=
          { has_push_lock := mon.has_push_lock, running := mon.running
            manager := r.manager }
        emitted := r.emitted
        notifications := r.notifications }
    else
      { monitor := mon, emitted := [], notifications := [] }
  else
    { monitor := mon, emitted := [], notifications := [] }

/-- Deduplication contract of one boolean-returning mutator call on `m`
with result `r`, where `same` says the new value equals the stored one:
the call returns `true` iff the value differs, emits exactly one event
iff the value differs, is a strict no-op on an equal value, folds its
emitted events into the event log, and broadcasts each emitted event to
every registered callback with the updated snapshot. -/
def DedupSpec (m : StateManager) (r : MutationResult) (same : Prop) (w : Bool) : Prop :=
  (r.changed = true ↔ ¬ same)
  ∧ (r.emitted.length = 1 ↔ ¬ same)
  ∧ (same → r = { manager := m, changed := false, emitted := [], notifications := [] })
  ∧ r.manager.event_log = m.event_log.addAll r.emitted w
  ∧ ∀ e ∈ r.emitted, r.notifications =
      m.callbacks.map fun cb =>
        { cb_id := cb.id, snapshot := r.manager.state, event := e
          raised := cb.fails r.manager.state e }

/-- Outcome components of a boolean-returning mutator call that do not
involve the subscriber list: the returned boolean, the emitted events,
the updated snapshot and the updated event log. -/
def MutatorFrame (r1 r2 : MutationResult) : Prop :=
  r1.changed = r2.changed ∧ r1.emitted = r2.emitted
  ∧ r1.manager.state = r2.manager.state
  ∧ r1.manager.event_log = r2.manager.event_log

/-- Configuration with `quiet_hours_start = quiet_hours_end = 5` (the
other fields are the `PollConfig` defaults of `src/config.py`). -/
def cfgEqualBounds : PollConfig :=
  { quiet_interval_sec := 1800
    normal_interval_sec := 600
    active_interval_sec := 120
    active_decay_sec := 600
    battery_poll_interval_sec := 3600
    quiet_hours_start := 5
    quiet_hours_end := 5 }

/-- Configuration with the overnight quiet window 22 → 6. -/
def cfgNight : PollConfig :=
  { quiet_interval_sec := 1800
    normal_interval_sec := 600
    active_interval_sec := 120
    active_decay_sec := 600
    battery_poll_interval_sec := 3600
    quiet_hours_start := 22
    quiet_hours_end := 6 }

/-- A manager whose snapshot carries a fixed earlier `last_updated`
timestamp. -/
def managerT0 : StateManager :=
  { state := { DoormanState.init with last_updated := "2024-01-01T00:00:00Z" }
    event_log := { max_memory := 500, events := [], file := [] }
    callbacks := [] }

/-- Two subscriber callbacks, the first of which always raises. -/
def sampleCallbacks : List Callback :=
  [{ id := 1, fails := fun _ _ => true }, { id := 2, fails := fun _ _ => false }]

/-- A freshly initialised manager with an empty log and the two sample
callbacks registered. -/
def sampleManager : StateManager :=
  { state := DoormanState.init
    event_log := { max_memory := 500, events := [], file := [] }
    callbacks := sampleCallbacks }

/-- A hundred distinct well-formed events, standing for `E1..E100`. -/
def sampleEvents : List StateEvent :=
  (List.range 100).map fun i =>
    { timestamp := toString i, event_type := "lock_state"
      old_value := "a", new_value := "b", source := "ble" }

/-- An event log whose in-memory window holds one event. -/
def sampleLog : EventLog :=
  { max_memory := 500
    events := [{ timestamp := "T0", event_type := "lock_state"
                 old_value := "unknown", new_value := "locked", source := "ble" }]
    file := [{ timestamp := "T0", event_type := "lock_state"
               old_value := "unknown", new_value := "locked", source := "ble" }] }

theorem notifyAll_eq_map (cbs : List Callback) (s : DoormanState) (e : StateEvent) :
    notifyAll cbs s e =
      cbs.map fun cb =>
        { cb_id := cb.id, snapshot := s, event := e, raised := cb.fails s e } := by
  induction cbs with
  | nil => rfl
  | cons cb rest ih =>
    by_cases hf : cb.fails s e <;> simp [notifyAll, invokeCallback, hf, ih]

theorem update_lock_state_dedup (m : StateManager) (v src now : String) (w : Bool) :
    DedupSpec m (m.update_lock_state v src now w) (v = m.state.lock_state) w := by
  by_cases h : v = m.state.lock_state <;>
    simp [DedupSpec, StateManager.update_lock_state, h, EventLog.addAll, notifyAll_eq_map]

theorem update_door_state_dedup (m : StateManager) (v src now : String) (w : Bool) :
    DedupSpec m (m.update_door_state v src now w) (v = m.state.door_state) w := by
  by_cases h : v = m.state.door_state <;>
    simp [DedupSpec, StateManager.update_door_state, h, EventLog.addAll, notifyAll_eq_map]

theorem update_battery_dedup (m : StateManager) (lvl : Int) (volt : Option Rat)
    (src now : String) (w : Bool) :
    DedupSpec m (m.update_battery lvl volt src now w) (some lvl = m.state.battery_level) w := by
  by_cases h : some lvl = m.state.battery_level <;>
    simp [DedupSpec, StateManager.update_battery, h, EventLog.addAll, notifyAll_eq_map]

theorem update_doorbell_dedup (m : StateManager) (ring : Bool) (src now : String) (w : Bool) :
    DedupSpec m (m.update_doorbell ring src now w) (ring = m.state.doorbell_ringing) w := by
  by_cases h : ring = m.state.doorbell_ringing <;>
    simp [DedupSpec, StateManager.update_doorbell, h, EventLog.addAll, notifyAll_eq_map]

theorem update_lock_state_stores (m : StateManager) (v src now : String) (w : Bool) :
    (m.update_lock_state v src now w).manager.state.lock_state = v := by
  by_cases h : v = m.state.lock_state <;> simp [StateManager.update_lock_state, h]

theorem update_door_state_stores (m : StateManager) (v src now : String) (w : Bool) :
    (m.update_door_state v src now w).manager.state.door_state = v := by
  by_cases h : v = m.state.door_state <;> simp [StateManager.update_door_state, h]

theorem update_battery_stores (m : StateManager) (lvl : Int) (volt : Option Rat)
    (src now : String) (w : Bool) :
    (m.update_battery lvl volt src now w).manager.state.battery_level = some lvl := by
  by_cases h : some lvl = m.state.battery_level <;> simp [StateManager.update_battery, h]

theorem update_doorbell_stores (m : StateManager) (ring : Bool) (src now : String) (w : Bool) :
    (m.update_doorbell ring src now w).manager.state.doorbell_ringing = ring := by
  by_cases h : ring = m.state.doorbell_ringing
  · simp [StateManager.update_doorbell, h]
  · simp [StateManager.update_doorbell, h]
    cases ring <;> simp_all

theorem update_lock_state_noop (m : StateManager) (v src now : String) (w : Bool)
    (h : m.state.lock_state = v) :
    m.update_lock_state v src now w =
      { manager := m, changed := false, emitted := [], notifications := [] } := by
  simp [StateManager.update_lock_state, h]

theorem update_door_state_noop (m : StateManager) (v src now : String) (w : Bool)
    (h : m.state.door_state = v) :
    m.update_door_state v src now w =
      { manager := m, changed := false, emitted := [], notifications := [] } := by
  simp [StateManager.update_door_state, h]

theorem update_battery_noop (m : StateManager) (lvl : Int) (volt : Option Rat)
    (src now : String) (w : Bool) (h : m.state.battery_level = some lvl) :
    m.update_battery lvl volt src now w =
      { manager := m, changed := false, emitted := [], notifications := [] } := by
  simp [StateManager.update_battery, h]

theorem update_doorbell_noop (m : StateManager) (ring : Bool) (src now : String) (w : Bool)
    (h : m.state.doorbell_ringing = ring) :
    m.update_doorbell ring src now w =
      { manager := m, changed := false, emitted := [], notifications := [] } := by
  simp [StateManager.update_doorbell, h]

theorem iterateMutator_count_zero (step : StateManager → MutationResult) (m : StateManager)
    (h : step m = { manager := m, changed := false, emitted := [], notifications := [] }) :
    ∀ n, (iterateMutator step n m).2 = 0 := by
  intro n
  induction n with
  | zero => rfl
  | succ k ih => simp [iterateMutator, h, ih]

theorem iterateMutator_le_one (step : StateManager → MutationResult)
    (hlen : ∀ m, (step m).emitted.length ≤ 1)
    (hstable : ∀ m, step (step m).manager =
      { manager := (step m).manager, changed := false, emitted := [], notifications := [] }) :
    ∀ n m, (iterateMutator step n m).2 ≤ 1 := by
  intro n m
  cases n with
  | zero => simp [iterateMutator]
  | succ k =>
    have hz := iterateMutator_count_zero step (step m).manager (hstable m) k
    simp [iterateMutator, hz]
    exact hlen m

theorem iterate_lock_le_one (m : StateManager) (v src now : String) (w : Bool) (n : Nat) :
    (iterateMutator (fun m2 => m2.update_lock_state v src now w) n m).2 ≤ 1 := by
  apply iterateMutator_le_one
  · intro m2
    by_cases h : v = m2.state.lock_state <;> simp [StateManager.update_lock_state, h]
  · intro m2
    exact update_lock_state_noop _ v src now w (update_lock_state_stores m2 v src now w)

theorem iterate_door_le_one (m : StateManager) (v src now : String) (w : Bool) (n : Nat) :
    (iterateMutator (fun m2 => m2.update_door_state v src now w) n m).2 ≤ 1 := by
  apply iterateMutator_le_one
  · intro m2
    by_cases h : v = m2.state.door_state <;> simp [StateManager.update_door_state, h]
  · intro m2
    exact update_door_state_noop _ v src now w (update_door_state_stores m2 v src now w)

theorem iterate_battery_le_one (m : StateManager) (lvl : Int) (volt : Option Rat)
    (src now : String) (w : Bool) (n : Nat) :
    (iterateMutator (fun m2 => m2.update_battery lvl volt src now w) n m).2 ≤ 1 := by
  apply iterateMutator_le_one
  · intro m2
    by_cases h : some lvl = m2.state.battery_level <;> simp [StateManager.update_battery, h]
  · intro m2
    exact update_battery_noop _ lvl volt src now w (update_battery_stores m2 lvl volt src now w)

theorem iterate_doorbell_le_one (m : StateManager) (ring : Bool) (src now : String)
    (w : Bool) (n : Nat) :
    (iterateMutator (fun m2 => m2.update_doorbell ring src now w) n m).2 ≤ 1 := by
  apply iterateMutator_le_one
  · intro m2
    by_cases h : ring = m2.state.doorbell_ringing <;> simp [StateManager.update_doorbell, h]
  · intro m2
    exact update_doorbell_noop _ ring src now w (update_doorbell_stores m2 ring src now w)

/-- C1: each boolean-returning mutator (`update_lock_state`,
`update_door_state`, `update_battery`, `update_doorbell`) returns `true`
and emits exactly one `StateEvent` (folded into the event log and
broadcast to every subscriber with the updated snapshot) iff the new
value differs from the stored one; on an equal value it returns `false`,
emits nothing, notifies nobody and leaves the manager unchanged; and
iterating any of them with a fixed value emits at most one event in
total. -/
theorem dedup_iff_value_changes (m : StateManager) (v : String) (lvl : Int)
    (volt : Option Rat) (ring : Bool) (src now : String) (w : Bool) (n : Nat) :
    DedupSpec m (m.update_lock_state v src now w) (v = m.state.lock_state) w
    ∧ DedupSpec m (m.update_door_state v src now w) (v = m.state.door_state) w
    ∧ DedupSpec m (m.update_battery lvl volt src now w) (some lvl = m.state.battery_level) w
    ∧ DedupSpec m (m.update_doorbell ring src now w) (ring = m.state.doorbell_ringing) w
    ∧ (iterateMutator (fun m2 => m2.update_lock_state v src now w) n m).2 ≤ 1
    ∧ (iterateMutator (fun m2 => m2.update_door_state v src now w) n m).2 ≤ 1
    ∧ (iterateMutator (fun m2 => m2.update_battery lvl volt src now w) n m).2 ≤ 1
    ∧ (iterateMutator (fun m2 => m2.update_doorbell ring src now w) n m).2 ≤ 1 :=
  ⟨update_lock_state_dedup m v src now w,
   update_door_state_dedup m v src now w,
   update_battery_dedup m lvl volt src now w,
   update_doorbell_dedup m ring src now w,
   iterate_lock_le_one m v src now w n,
   iterate_door_le_one m v src now w n,
   iterate_battery_le_one m lvl volt src now w n,
   iterate_doorbell_le_one m ring src now w n⟩

/-- C2: the next-interval computation gives strict priority to active
mode — whenever `last_activity_time` is non-zero and the monotonic decay
window has not elapsed, the active interval and mode are selected
regardless of the hour (even during quiet hours); otherwise the quiet
interval is selected exactly when the hour is in the quiet window, and
the normal interval otherwise; and with `last_activity_time = 0` active
mode is never selected. -/
theorem poll_interval_priority (cfg : PollConfig) (nowMono la : Rat) (hour : Int) :
    (la ≠ 0 → nowMono - la < (cfg.active_decay_sec : Rat) →
      get_next_poll_interval cfg nowMono la hour = ((cfg.active_interval_sec : Rat), "active"))
    ∧ (la = 0 ∨ ¬ nowMono - la < (cfg.active_decay_sec : Rat) →
      get_next_poll_interval cfg nowMono la hour =
        (if is_quiet_hours cfg hour then ((cfg.quiet_interval_sec : Rat), "quiet")
         else ((cfg.normal_interval_sec : Rat), "normal")))
    ∧ (la = 0 → (get_next_poll_interval cfg nowMono la hour).2 ≠ "active") := by
  refine ⟨?_, ?_, ?_⟩
  · intro hla hlt
    simp [get_next_poll_interval, is_active_mode, hla, hlt]
  · intro hcase
    rcases hcase with h0 | hnl
    · simp [get_next_poll_interval, is_active_mode, h0]
    · by_cases h0 : la = 0 <;>
        simp [get_next_poll_interval, is_active_mode, h0, hnl]
  · intro h0
    by_cases hq : is_quiet_hours cfg hour = true <;>
      simp [get_next_poll_interval, is_active_mode, h0, hq]

/-- C3 counterexample: with `quiet_hours_start = quiet_hours_end = 5`
the half-open window `[5, 5)` is empty, so hour 12 should not be quiet —
but `_is_quiet_hours` branches on `start < end`, sends the equal case to
the wraparound test `hour >= start or hour < end`, and judges hour 12
quiet. -/
theorem quiet_hours_equal_bounds_cex : is_quiet_hours cfgEqualBounds 12 = true := by decide

/-- C3 amended: for `start < end` the window is the half-open
`[start, end)`; for `start > end` it wraps midnight and matches
`hour ≥ start ∨ hour < end` (so with 22 → 6, hours 23 and 3 are quiet
and hour 12 is not); but for `start = end` the wraparound branch applies
and every hour is judged quiet — the window is the full day, not
empty. -/
theorem quiet_hours_window (cfg : PollConfig) (hour : Int) :
    (cfg.quiet_hours_start < cfg.quiet_hours_end →
      (is_quiet_hours cfg hour = true ↔
        cfg.quiet_hours_start ≤ hour ∧ hour < cfg.quiet_hours_end))
    ∧ (cfg.quiet_hours_end < cfg.quiet_hours_start →
      (is_quiet_hours cfg hour = true ↔
        hour ≥ cfg.quiet_hours_start ∨ hour < cfg.quiet_hours_end))
    ∧ (cfg.quiet_hours_start = cfg.quiet_hours_end → is_quiet_hours cfg hour = true)
    ∧ is_quiet_hours cfgNight 23 = true
    ∧ is_quiet_hours cfgNight 3 = true
    ∧ is_quiet_hours cfgNight 12 = false := by
  refine ⟨?_, ?_, ?_, by decide, by decide, by decide⟩
  · intro hlt
    simp [is_quiet_hours, hlt]
  · intro hlt
    have hnot : ¬ cfg.quiet_hours_start < cfg.quiet_hours_end := by omega
    simp [is_quiet_hours, hnot]
  · intro heq
    have hnot : ¬ cfg.quiet_hours_start < cfg.quiet_hours_end := by omega
    simp only [is_quiet_hours, hnot, if_false, decide_eq_true_eq]
    omega

/-- C4 counterexample: `update_lock_info` does not recompute
`last_updated` — after the call the snapshot still carries the pre-call
timestamp (the method writes only the three hardware-info fields and
never reads the clock), contradicting the claim that every mutation
method recomputes `last_updated` on each call. -/
theorem lock_info_keeps_timestamp_cex :
    (managerT0.update_lock_info "L3S" "SN123" "1.0.0").state.last_updated
      = "2024-01-01T00:00:00Z" := rfl

/-- C4 amended: the accepted lock-state, door-state, battery and doorbell
mutations recompute `last_updated`, and `update_connection` does so on
every call; but `update_lock_info` and `update_auto_lock` leave
`last_updated` untouched.  Accepted lock-state and door-state transitions
update `last_activity` / `last_activity_type`; an accepted doorbell
transition does so only when ringing becomes true — clearing the doorbell
leaves the activity fields unchanged; battery updates never touch
them. -/
theorem timestamp_discipline (m : StateManager) (v src now : String) (lvl : Int)
    (volt : Option Rat) (conn : Bool) (rssi : Option Int)
    (model serial fw : String) (en : Bool) (dur : Int) (w : Bool) :
    ((m.update_lock_state v src now w).changed = true →
      (m.update_lock_state v src now w).manager.state.last_updated = now
      ∧ (m.update_lock_state v src now w).manager.state.last_activity = now
      ∧ (m.update_lock_state v src now w).manager.state.last_activity_type = v)
    ∧ ((m.update_door_state v src now w).changed = true →
      (m.update_door_state v src now w).manager.state.last_updated = now
      ∧ (m.update_door_state v src now w).manager.state.last_activity = now
      ∧ (m.update_door_state v src now w).manager.state.last_activity_type = "door_" ++ v)
    ∧ ((m.update_battery lvl volt src now w).changed = true →
      (m.update_battery lvl volt src now w).manager.state.last_updated = now
      ∧ (m.update_battery lvl volt src now w).manager.state.last_activity
          = m.state.last_activity
      ∧ (m.update_battery lvl volt src now w).manager.state.last_activity_type
          = m.state.last_activity_type)
    ∧ ((m.update_doorbell true src now w).changed = true →
      (m.update_doorbell true src now w).manager.state.last_updated = now
      ∧ (m.update_doorbell true src now w).manager.state.last_activity = now
      ∧ (m.update_doorbell true src now w).manager.state.last_activity_type = "doorbell")
    ∧ ((m.update_doorbell false src now w).changed = true →
      (m.update_doorbell false src now w).manager.state.last_updated = now
      ∧ (m.update_doorbell false src now w).manager.state.last_activity
          = m.state.last_activity
      ∧ (m.update_doorbell false src now w).manager.state.last_activity_type
          = m.state.last_activity_type)
    ∧ (m.update_connection conn rssi now w).manager.state.last_updated = now
    ∧ (m.update_lock_info model serial fw).state.last_updated = m.state.last_updated
    ∧ (m.update_lock_info model serial fw).state.last_activity = m.state.last_activity
    ∧ (m.update_auto_lock en dur).state.last_updated = m.state.last_updated
    ∧ (m.update_auto_lock en dur).state.last_activity = m.state.last_activity := by
  refine ⟨?_, ?_, ?_, ?_, ?_, ?_, rfl, rfl, rfl, rfl⟩
  · intro hch
    by_cases h : v = m.state.lock_state
    · rw [update_lock_state_noop m v src now w h.symm] at hch
      simp at hch
    · simp [StateManager.update_lock_state, h]
  · intro hch
    by_cases h : v = m.state.door_state
    · rw [update_door_state_noop m v src now w h.symm] at hch
      simp at hch
    · simp [StateManager.update_door_state, h]
  · intro hch
    by_cases h : some lvl = m.state.battery_level
    · rw [update_battery_noop m lvl volt src now w h.symm] at hch
      simp at hch
    · simp [StateManager.update_battery, h]
  · intro hch
    by_cases h : true = m.state.doorbell_ringing
    · rw [update_doorbell_noop m true src now w h.symm] at hch
      simp at hch
    · simp [StateManager.update_doorbell, h]
  · intro hch
    by_cases h : false = m.state.doorbell_ringing
    · rw [update_doorbell_noop m false src now w h.symm] at hch
      simp at hch
    · simp [StateManager.update_doorbell, h]
  · by_cases h : conn = m.state.connected <;>
      simp [StateManager.update_connection, h]

/-- C5: `update_connection` stores the supplied signal strength and the
connected flag unconditionally, but creates, appends and broadcasts a
`connection` event only when the connected boolean flips; when the
boolean is unchanged no event is emitted and no subscriber notified,
even though `rssi` was just overwritten. -/
theorem connection_event_iff_flip (m : StateManager) (conn : Bool) (rssi : Option Int)
    (now : String) (w : Bool) :
    (m.update_connection conn rssi now w).manager.state.rssi = rssi
    ∧ (m.update_connection conn rssi now w).manager.state.connected = conn
    ∧ (conn = m.state.connected →
      (m.update_connection conn rssi now w).emitted = []
      ∧ (m.update_connection conn rssi now w).notifications = []
      ∧ (m.update_connection conn rssi now w).manager.event_log = m.event_log)
    ∧ (conn ≠ m.state.connected →
      (m.update_connection conn rssi now w).emitted.length = 1
      ∧ (m.update_connection conn rssi now w).manager.event_log
          = m.event_log.addAll (m.update_connection conn rssi now w).emitted w
      ∧ ∀ e ∈ (m.update_connection conn rssi now w).emitted,
          e.event_type = "connection"
          ∧ (m.update_connection conn rssi now w).notifications =
              m.callbacks.map fun cb =>
                { cb_id := cb.id
                  snapshot := (m.update_connection conn rssi now w).manager.state
                  event := e
                  raised := cb.fails (m.update_connection conn rssi now w).manager.state e }) := by
  by_cases h : conn = m.state.connected <;>
    simp [StateManager.update_connection, h, EventLog.addAll, notifyAll_eq_map]

/-- C6: when the durable append fails (`writeOk = false`) during an
accepted `update_door_state "open"`, the in-memory snapshot still ends
with `door_state = "open"`, the call still returns `true`, the durable
file is unchanged, exactly one event is still created, and every
registered subscriber is still notified with it — and the mutator is a
total function of the write outcome, so no exception reaches its
caller. -/
theorem door_open_survives_write_failure (m : StateManager) (src now : String)
    (hne : m.state.door_state ≠ "open") :
    (m.update_door_state "open" src now false).manager.state.door_state = "open"
    ∧ (m.update_door_state "open" src now false).changed = true
    ∧ (m.update_door_state "open" src now false).manager.event_log.file = m.event_log.file
    ∧ (m.update_door_state "open" src now false).emitted.length = 1
    ∧ ∀ e ∈ (m.update_door_state "open" src now false).emitted,
        (m.update_door_state "open" src now false).notifications =
          m.callbacks.map fun cb =>
            { cb_id := cb.id
              snapshot := (m.update_door_state "open" src now false).manager.state
              event := e
              raised := cb.fails (m.update_door_state "open" src now false).manager.state e } := by
  have h : ¬ "open" = m.state.door_state := fun hh => hne hh.symm
  simp [StateManager.update_door_state, h, EventLog.add, notifyAll_eq_map]

theorem door_open_survives_write_failure_witness :
    sampleManager.state.door_state ≠ "open"
    ∧ (sampleManager.update_door_state "open" "poll" "T1" false).manager.state.door_state
        = "open" :=
  ⟨by decide, (door_open_survives_write_failure sampleManager "poll" "T1" (by decide)).1⟩

/-- C7: a ledger freshly loaded from a well-formed durable log of 100
events with an in-memory bound of 50 answers `recent 50` with exactly
the last fifty file events, in file order. -/
theorem restart_recovery_tail (es : List StateEvent) (h : es.length = 100) :
    (EventLog.load es 50).recent 50 = es.drop 50 := by
  simp [EventLog.load, EventLog.recent, pyTailSlice, h]

theorem restart_recovery_tail_witness :
    sampleEvents.length = 100
    ∧ (EventLog.load sampleEvents 50).recent 50 = sampleEvents.drop 50 :=
  ⟨by simp [sampleEvents], restart_recovery_tail sampleEvents (by simp [sampleEvents])⟩

/-- C8: the notification loop invokes every registered callback with the
same `(snapshot, event)` pair, each entry of the trace depending only on
its own callback (a raise is caught in that iteration and the loop
continues); and the mutation's returned boolean, emitted events,
snapshot and event log — hence its durable append — are the same
whatever the registered callbacks do. -/
theorem subscriber_fault_isolation (cbs cbs2 : List Callback) (s st : DoormanState)
    (e : StateEvent) (log : EventLog) (v src now : String) (lvl : Int)
    (volt : Option Rat) (ring conn : Bool) (rssi : Option Int) (w : Bool) :
    notifyAll cbs s e =
      cbs.map (fun cb => { cb_id := cb.id, snapshot := s, event := e
                           raised := cb.fails s e })
    ∧ MutatorFrame (StateManager.update_lock_state ⟨st, log, cbs⟩ v src now w)
        (StateManager.update_lock_state ⟨st, log, cbs2⟩ v src now w)
    ∧ MutatorFrame (StateManager.update_door_state ⟨st, log, cbs⟩ v src now w)
        (StateManager.update_door_state ⟨st, log, cbs2⟩ v src now w)
    ∧ MutatorFrame (StateManager.update_battery ⟨st, log, cbs⟩ lvl volt src now w)
        (StateManager.update_battery ⟨st, log, cbs2⟩ lvl volt src now w)
    ∧ MutatorFrame (StateManager.update_doorbell ⟨st, log, cbs⟩ ring src now w)
        (StateManager.update_doorbell ⟨st, log, cbs2⟩ ring src now w)
    ∧ (StateManager.update_connection ⟨st, log, cbs⟩ conn rssi now w).manager.state
        = (StateManager.update_connection ⟨st, log, cbs2⟩ conn rssi now w).manager.state
    ∧ (StateManager.update_connection ⟨st, log, cbs⟩ conn rssi now w).manager.event_log
        = (StateManager.update_connection ⟨st, log, cbs2⟩ conn rssi now w).manager.event_log
    ∧ (StateManager.update_connection ⟨st, log, cbs⟩ conn rssi now w).emitted
        = (StateManager.update_connection ⟨st, log, cbs2⟩ conn rssi now w).emitted := by
  refine ⟨notifyAll_eq_map cbs s e, ?_, ?_, ?_, ?_, ?_⟩
  · by_cases h : v = st.lock_state <;>
      simp [MutatorFrame, StateManager.update_lock_state, h]
  · by_cases h : v = st.door_state <;>
      simp [MutatorFrame, StateManager.update_door_state, h]
  · by_cases h : some lvl = st.battery_level <;>
      simp [MutatorFrame, StateManager.update_battery, h]
  · by_cases h : ring = st.doorbell_ringing <;>
      simp [MutatorFrame, StateManager.update_doorbell, h]
  · by_cases h : conn = st.connected <;>
      simp [StateManager.update_connection, h]

/-- C9: when a session exists and the coordinator is running, a raising
`update()` read makes `poll_state` set `connected = false` (with `rssi`
cleared) in the ledger while the coordinator's own flags are untouched,
and `poll_state` is a total function of the read outcome, so the
exception stops at the coordinator; when no session exists or the
coordinator is stopped — and likewise when the read succeeds — the call
changes nothing. -/
theorem poll_state_spec (mon : MonitorState) (now : String) (w : Bool) (raises : Bool) :
    (mon.has_push_lock = true → mon.running = true → raises = true →
      (mon.poll_state raises now w).monitor.manager.state.connected = false
      ∧ (mon.poll_state raises now w).monitor.manager.state.rssi = none
      ∧ (mon.poll_state raises now w).monitor.has_push_lock = mon.has_push_lock
      ∧ (mon.poll_state raises now w).monitor.running = mon.running)
    ∧ (mon.has_push_lock = false ∨ mon.running = false →
      mon.poll_state raises now w = { monitor := mon, emitted := [], notifications := [] })
    ∧ (raises = false →
      mon.poll_state raises now w = { monitor := mon, emitted := [], notifications := [] }) := by
  refine ⟨?_, ?_, ?_⟩
  · intro h1 h2 h3
    by_cases hc : (false : Bool) = mon.manager.state.connected <;>
      simp [MonitorState.poll_state, StateManager.update_connection, h1, h2, h3, hc]
  · intro hcase
    rcases hcase with h | h <;> simp [MonitorState.poll_state, h]
  · intro h
    by_cases hg : (mon.has_push_lock && mon.running) = true <;>
      simp [MonitorState.poll_state, h, hg]

/-- C10: `recent 0` is the Python slice `events[-0:]`, which is
`events[0:]` — the whole in-memory window — so on a non-empty window it
returns every buffered event, not an empty list. -/
theorem recent_zero_returns_all (log : EventLog) (h : log.events ≠ []) :
    log.recent 0 = log.events ∧ log.recent 0 ≠ [] := by
  exact ⟨rfl, by simpa [EventLog.recent, pyTailSlice] using h⟩

theorem recent_zero_returns_all_witness :
    sampleLog.events ≠ []
    ∧ (sampleLog.recent 0 = sampleLog.events ∧ sampleLog.recent 0 ≠ []) :=
  ⟨by decide, recent_zero_returns_all sampleLog (by decide)⟩

end YaleDoorman
